import Mathlib

/-!
Verification development for the KakaoTalk chat log analyzer
(src/analyzer.py and src/kakaotalk.py), shallowly embedded in Lean.
Python strings are Lean strings, input lines are handed to the parser the
way the Python file iterator yields them (with their trailing newline),
Python exceptions are an explicit error type, and the class-level container
attributes of the Chatroom class are modelled as a state record that is
separate from the per-instance attributes, mirroring how CPython shares
class attributes between instances that never assign them.
-/

namespace KTA

/-- Python exceptions that the embedded code can raise. -/
inductive PyErr where
  | valueError : String → PyErr
  | keyError : String → PyErr
  | typeError : String → PyErr
  | attributeError : String → PyErr
deriving DecidableEq

/-- A naive datetime value covering the fields the analyzer touches. -/
structure PyDateTime where
  year : Nat
  month : Nat
  day : Nat
  hour : Nat
  minute : Nat
  second : Nat
deriving DecidableEq

/-- Model of datetime.replace with the hour and minute keyword arguments
(analyzer.py line 386).  Python validates the new fields and raises
ValueError when the hour is not in 0..23 or the minute not in 0..59. -/
def PyDateTime.replaceHM (t : PyDateTime) (h m : Nat) : Except PyErr PyDateTime :=
  if h ≤ 23 then
    if m ≤ 59 then .ok { t with hour := h, minute := m }
    else .error (.valueError "minute must be in 0..59")
  else .error (.valueError "hour must be in 0..23")

/-- analyzer.py line 17 runs import datetime, binding the module object, and
lines 349 and 442 then evaluate the attribute datetime.strptime.  The module
has no such attribute (the function lives on the class datetime.datetime;
src/kakaotalk.py line 14 imports it correctly), so every one of these call
sites raises AttributeError before any date parsing can happen. -/
def datetimeModuleStrptime (_s _fmt : String) : Except PyErr PyDateTime :=
  .error (.attributeError "module datetime has no attribute strptime")

/-- analyzer.py lines 402 and 410 call re.match with only the pattern,
leaving out the string to be matched; re.match has two required positional
parameters, so the call raises TypeError. -/
def reMatchMissingArgument : Except PyErr Unit :=
  .error (.typeError "match missing 1 required positional argument: string")

/-! ## Python dictionaries, modelled as association lists -/

/-- A Python dict, as an insertion-ordered association list. -/
abbrev PyDict (κ α : Type) := List (κ × α)

/-- Reading d.get(k) or the containment test k in d. -/
def dictGet [DecidableEq κ] (d : PyDict κ α) (k : κ) : Option α :=
  (d.find? (fun p => decide (p.1 = k))).map (·.2)

/-- Writing d[k] = v: replaces in place when the key exists, appends
otherwise (insertion order preserved, as in CPython). -/
def dictSet [DecidableEq κ] (d : PyDict κ α) (k : κ) (v : α) : PyDict κ α :=
  if (d.find? (fun p => decide (p.1 = k))).isSome then
    d.map (fun p => if p.1 = k then (k, v) else p)
  else d ++ [(k, v)]

/-- The recurring idiom: if k in d, then d[k] += 1, else d[k] = 1. -/
def dictIncr [DecidableEq κ] (d : PyDict κ Nat) (k : κ) : PyDict κ Nat :=
  match dictGet d k with
  | some n => dictSet d k (n + 1)
  | none => dictSet d k 1

/-! ## Character and string helpers mirroring the Python operations used -/

/-- The regex class backslash-d. -/
def isDigitCh (c : Char) : Bool := '0' ≤ c && c ≤ '9'

/-- The regex class backslash-w.  Python matches Unicode word characters;
we cover ASCII alphanumerics, the underscore, and treat all non-ASCII
characters as word characters, which is accurate for every Hangul and Latin
character occurring in the chat format. -/
def isWordCh (c : Char) : Bool := c.isAlphanum || c == '_' || c.val > 127

/-- Whether the first list begins with the second one. -/
def startsWithL : List Char → List Char → Bool
  | _, [] => true
  | [], _ :: _ => false
  | a :: as, b :: bs => a == b && startsWithL as bs

/-- Python int() applied to the digit-only capture of a regex group; an
empty capture raises ValueError. -/
def pyIntDigits : List Char → Except PyErr Nat
  | [] => .error (.valueError "invalid literal for int with base 10")
  | ds => .ok (ds.foldl (fun a c => a * 10 + (c.toNat - 48)) 0)

/-- Python str.split on a single space: every space is a separator and
empty fragments are kept, exactly as content.split of a space behaves. -/
def splitSp : List Char → List (List Char)
  | [] => [[]]
  | ' ' :: rest => [] :: splitSp rest
  | c :: rest =>
    match splitSp rest with
    | [] => [[c]]
    | w :: ws => (c :: w) :: ws

/-- Whether the string contains the substring _hr
(the containment test on kakaotalk.py line 217). -/
def containsHr : List Char → Bool
  | '_' :: 'h' :: 'r' :: _ => true
  | _ :: rest => containsHr rest
  | [] => false

/-- Python str.replace of the substring _hr by the empty string
(kakaotalk.py line 219): left-to-right, non-overlapping. -/
def stripHrChars : List Char → List Char
  | '_' :: 'h' :: 'r' :: rest => stripHrChars rest
  | c :: rest => c :: stripHrChars rest
  | [] => []

def strContainsHr (s : String) : Bool := containsHr s.toList

def strStripHr (s : String) : String := (stripHrChars s.toList).asString

/-- One decimal digit character. -/
def natDigit (n : Nat) : Char := Char.ofNat (48 + n % 10)

/-- Zero-padded two-digit rendering (strftime with percent-m). -/
def pad2 (n : Nat) : String := ⟨[natDigit (n / 10), natDigit n]⟩

/-- Four-digit rendering (strftime with percent-Y, for years 1000..9999). -/
def pad4 (n : Nat) : String :=
  ⟨[natDigit (n / 1000), natDigit (n / 100), natDigit (n / 10), natDigit n]⟩

/-- msg.time.strftime with format percent-Y percent-m
(kakaotalk.py line 225). -/
def strftimeYM (t : PyDateTime) : String := pad4 t.year ++ pad2 t.month

/-- Sakamoto day-of-week formula, 0 = Sunday. -/
def sakamotoTable : List Nat := [0, 3, 2, 5, 0, 3, 5, 1, 4, 6, 2, 4]

def dayOfWeekSun0 (y m d : Nat) : Nat :=
  let y1 := if m < 3 then y - 1 else y
  (((y1 + y1 / 4).sub (y1 / 100)) + y1 / 400 + sakamotoTable.getD (m - 1) 0 + d) % 7

/-- Python datetime.weekday, Monday = 0 (kakaotalk.py line 232). -/
def PyDateTime.weekday (t : PyDateTime) : Nat :=
  (dayOfWeekSun0 t.year t.month t.day + 6) % 7

/-! ## The record model of src/kakaotalk.py -/

/-- kakaotalk.Message.  A missing timestamp (messages seen before any date
tag) is the Python value None, hence an Option here. -/
structure Message where
  time : Option PyDateTime
  author : String
  content : String
  rich_content_type : Option String
  rich_content_duration : Option Nat
deriving DecidableEq

/-- Message.append (kakaotalk.py lines 49-57): the new content is glued to
the existing content with a single newline in between. -/
def Message.append (m : Message) (content : String) : Message :=
  { m with content := m.content ++ "\n" ++ content }

/-- Message.get_words (kakaotalk.py line 74): content.split on a space. -/
def Message.get_words (m : Message) : List String :=
  (splitSp m.content.toList).map List.asString

def Message.get_word_count (m : Message) : Nat :=
  m.get_words.length

/-- Message.get_letter_count (kakaotalk.py line 93): length of the content
minus the number of space characters in it. -/
def Message.get_letter_count (m : Message) : Nat :=
  m.content.toList.length - m.content.toList.countP (· == ' ')

/-- kakaotalk.Event. -/
structure Event where
  event_type : String
  content : String
deriving DecidableEq

/-- The container attributes declared at class level in Chatroom
(kakaotalk.py lines 145-196).  They are created once, when the class object
is built, and no method of the class ever rebinds them on an instance: every
instance reads and mutates these same shared objects. -/
structure ChatroomShared where
  messages : List Message
  events : List Event
  message_count_by_month : PyDict String Nat
  message_count_by_day_of_week : PyDict Nat Nat
  message_count_by_time_of_day : PyDict Nat Nat
  message_count_by_participant : PyDict String Nat
  message_count_by_participant_and_month : PyDict String (PyDict String Nat)
  rich_content_count : PyDict String Nat
  rich_content_duration : PyDict String Nat
  event_count : PyDict String Nat
deriving DecidableEq

/-- The shared containers as the class body initializes them.  Note the
rich_content_count key sticker, singular, while the classifier produces the
tag stickers. -/
def chatroomClassInit : ChatroomShared where
  messages := []
  events := []
  message_count_by_month := []
  message_count_by_day_of_week := []
  message_count_by_time_of_day := []
  message_count_by_participant := []
  message_count_by_participant_and_month := []
  rich_content_count :=
    [("sticker", 0), ("photo", 0), ("video", 0), ("deleted", 0), ("voice_note", 0),
     ("youtube_link", 0), ("link", 0), ("file", 0), ("voice_call", 0),
     ("video_call", 0), ("live_talk", 0)]
  rich_content_duration := [("voice_call", 0), ("video_call", 0), ("live_talk", 0)]
  event_count := [("invite", 0), ("leave", 0)]

/-- The attributes that end up per-instance: title and date_saved are set by
the constructor, and the immutable-valued counters are rebound on the
instance by augmented assignment the first time they change, starting from
the class-level initial values shown here. -/
structure ChatroomInstance where
  title : String
  date_saved : PyDateTime
  message_count : Nat
  day_count : Nat
  word_count : Nat
  letter_count : Nat
  date_message_count : Nat
  date_media_count : Nat
  date_sticker_count : Nat
  start_date : Option PyDateTime
  end_date : Option PyDateTime
  date_most_active_message : Option PyDateTime × Int
  date_most_active_media : Option PyDateTime × Int
  date_most_active_sticker : Option PyDateTime × Int
deriving DecidableEq

/-- Chatroom.init (kakaotalk.py lines 198-206) only stores the title and
the saved date; everything else keeps its class-level initial value. -/
def Chatroom.init (title : String) (date_saved : PyDateTime) : ChatroomInstance where
  title := title
  date_saved := date_saved
  message_count := 0
  day_count := 0
  word_count := 0
  letter_count := 0
  date_message_count := 0
  date_media_count := 0
  date_sticker_count := 0
  start_date := none
  end_date := none
  date_most_active_message := (none, -1)
  date_most_active_media := (none, -1)
  date_most_active_sticker := (none, -1)

/-- Attribute lookup of messages on a Chatroom instance: no code ever
assigns an instance attribute of that name, so the lookup always lands on
the one class-level list, whichever instance it goes through. -/
def Chatroom.getMessages (sh : ChatroomShared) (_inst : ChatroomInstance) : List Message :=
  sh.messages

/-- Result of a method call that may have raised midway: the fields hold
the state as mutated up to the point of the raise. -/
structure AddMessageResult where
  shared : ChatroomShared
  inst : ChatroomInstance
  err : Option PyErr
deriving DecidableEq

/-- Chatroom.add_message (kakaotalk.py lines 208-287), with the statements
in source order.  messages[-1] is the object msg that was just appended, so
the suffix strip on line 219 is visible both through the list and through
every later read of msg.rich_content_type. -/
def Chatroom.add_message (sh : ChatroomShared) (c : ChatroomInstance) (msg : Message) :
    AddMessageResult :=
  -- line 214: self.messages.append(msg)
  -- lines 217-219: strip _hr from the rich content type of messages[-1]
  let msg1 : Message :=
    match msg.rich_content_type with
    | some t => if strContainsHr t then { msg with rich_content_type := some (strStripHr t) }
                else msg
    | none => msg
  let sh := { sh with messages := sh.messages ++ [msg1] }
  -- line 222: message_count
  let c := { c with message_count := c.message_count + 1 }
  -- line 225: month = msg.time.strftime, AttributeError when time is None
  match msg1.time with
  | none => ⟨sh, c, some (.attributeError "NoneType object has no attribute strftime")⟩
  | some t =>
    let month := strftimeYM t
    let sh := { sh with message_count_by_month := dictIncr sh.message_count_by_month month }
    -- lines 232-236: day of week
    let sh := { sh with message_count_by_day_of_week :=
                  dictIncr sh.message_count_by_day_of_week t.weekday }
    -- lines 239-243: time of day, via get_hour on the (non-None) time
    let sh := { sh with message_count_by_time_of_day :=
                  dictIncr sh.message_count_by_time_of_day t.hour }
    -- lines 246-249: participant
    let sh := { sh with message_count_by_participant :=
                  dictIncr sh.message_count_by_participant msg1.author }
    -- lines 252-258: participant and month
    let pm :=
      match dictGet sh.message_count_by_participant_and_month month with
      | some inner => dictSet sh.message_count_by_participant_and_month month
          (dictIncr inner msg1.author)
      | none => dictSet sh.message_count_by_participant_and_month month
          [(msg1.author, 1)]
    let sh := { sh with message_count_by_participant_and_month := pm }
    -- lines 262-265: word and letter counts
    let c := { c with word_count := c.word_count + msg1.get_word_count,
                      letter_count := c.letter_count + msg1.get_letter_count }
    -- line 269: date_message_count
    let c := { c with date_message_count := c.date_message_count + 1 }
    -- lines 272-277: media and sticker day counters (identity comparison on
    -- interned literals, equivalent to equality here; note the comparison
    -- against sticker, singular, which the classifier never produces)
    let c := if msg1.rich_content_type == some "photo" ||
                msg1.rich_content_type == some "video" then
               { c with date_media_count := c.date_media_count + 1 } else c
    let c := if msg1.rich_content_type == some "sticker" then
               { c with date_sticker_count := c.date_sticker_count + 1 } else c
    -- lines 281-282: rich_content_count, raising KeyError when the type is
    -- not among the dict keys
    match msg1.rich_content_type with
    | some rct =>
      match dictGet sh.rich_content_count rct with
      | none => ⟨sh, c, some (.keyError rct)⟩
      | some n =>
        let sh := { sh with rich_content_count := dictSet sh.rich_content_count rct (n + 1) }
        -- lines 285-287: rich_content_duration
        match msg1.rich_content_duration with
        | none => ⟨sh, c, none⟩
        | some dur =>
          match dictGet sh.rich_content_duration rct with
          | none => ⟨sh, c, some (.keyError rct)⟩
          | some d0 =>
            ⟨{ sh with rich_content_duration :=
                 dictSet sh.rich_content_duration rct (d0 + dur) }, c, none⟩
    | none =>
      match msg1.rich_content_duration with
      | none => ⟨sh, c, none⟩
      | some _ =>
        -- duration present without a type: the dict is indexed with None
        ⟨sh, c, some (.keyError "None")⟩

/-- Result of Chatroom.add_event. -/
structure AddEventResult where
  shared : ChatroomShared
  err : Option PyErr
deriving DecidableEq

/-- Chatroom.add_event (kakaotalk.py lines 289-297): the event is appended
to the shared events list first, and only then is the per-kind counter
updated; an unknown kind makes that second step raise KeyError. -/
def Chatroom.add_event (sh : ChatroomShared) (e : Event) : AddEventResult :=
  let sh := { sh with events := sh.events ++ [e] }
  match dictGet sh.event_count e.event_type with
  | none => ⟨sh, some (.keyError e.event_type)⟩
  | some n => ⟨{ sh with event_count := dictSet sh.event_count e.event_type (n + 1) }, none⟩

/-! ## The pattern table of src/analyzer.py, as executable recognizers

Each Python pattern is used through re.match, which anchors at the start of
the string and accepts any remainder once the pattern is exhausted.  The
recognizers below realize exactly the patterns of analyzer.py lines 49-178,
with the greedy, backtracking semantics of the bounded dot groups. -/

/-- Matcher for a pattern of the form group of at most maxN dot characters
followed by a fixed literal: tries the group lengths from the longest down,
exactly like the greedy bounded repetition, and yields the group.  The dot
does not match a newline. -/
def matchHeadGroup (lit s : List Char) : Nat → Option (List Char)
  | 0 => if startsWithL s lit then some [] else none
  | k + 1 =>
    let pre := s.take (k + 1)
    if pre.length == k + 1 && pre.all (fun c => !(c == '\n')) &&
       startsWithL (s.drop (k + 1)) lit
    then some pre
    else matchHeadGroup lit s k

/-- Template check: the character d stands for one regex digit, every other
template character stands for itself. -/
def shapeOk : List Char → List Char → Bool
  | [], [] => true
  | 'd' :: ps, c :: cs => isDigitCh c && shapeOk ps cs
  | p :: ps, c :: cs => p == c && shapeOk ps cs
  | _, _ => false

/-- en_metadata_1 (line 49): a title of at most 50 characters followed by
the literal tail, capturing the title. -/
def en_metadata_1_match (line : String) : Option String :=
  (matchHeadGroup " with KakaoTalk Chats".toList line.toList 50).map List.asString

/-- ko_metadata_1 (line 127). -/
def ko_metadata_1_match (line : String) : Option String :=
  (matchHeadGroup " 님과 카카오톡 대화".toList line.toList 50).map List.asString

/-- The shared shape of en_metadata_2 (line 51) and ko_metadata_2
(line 129): a fixed literal then the captured timestamp digits. -/
def matchSavedStamp (lit : String) (line : String) : Option String :=
  let s := line.toList
  let l := lit.toList
  if startsWithL s l then
    let grp := (s.drop l.length).take 19
    if shapeOk "dddd-dd-dd dd:dd:dd".toList grp then some grp.asString else none
  else none

def en_metadata_2_match (line : String) : Option String :=
  matchSavedStamp "Date Saved: " line

def ko_metadata_2_match (line : String) : Option String :=
  matchSavedStamp "저장한 날짜 : " line

/-- Greedy run of word characters. -/
def takeWordRun (s : List Char) : List Char := s.takeWhile isWordCh

/-- en_date_tag (line 55): fifteen dashes, a space, the day word, a comma
and space, then the captured group month word, space, up to two digits,
comma and space, four digits, then a space and fifteen dashes. -/
def en_date_tag_match (line : String) : Option String :=
  let s := line.toList
  let lead := "--------------- ".toList
  if startsWithL s lead then
    let r := s.drop lead.length
    let day := takeWordRun r
    if day.length > 0 && startsWithL (r.drop day.length) ", ".toList then
      let r := r.drop (day.length + 2)
      let mon := takeWordRun r
      if mon.length > 0 && startsWithL (r.drop mon.length) " ".toList then
        let r2 := r.drop (mon.length + 1)
        let dd := (r2.takeWhile isDigitCh).take 2
        let r3 := r2.drop dd.length
        if startsWithL r3 ", ".toList then
          let yyyy := (r3.drop 2).take 4
          if yyyy.length == 4 && yyyy.all isDigitCh &&
             startsWithL ((r3.drop 2).drop 4) " ---------------".toList then
            some (mon ++ [' '] ++ dd ++ [',', ' '] ++ yyyy).asString
          else none
        else none
      else none
    else none
  else none

/-- ko_date_tag (line 133): fifteen dashes, a space, the captured group of
four digits, the year sign, space, up to two digits, the month sign, space,
up to two digits, the day sign, then a space, one arbitrary non-newline
character, the weekday suffix, a space and fifteen dashes. -/
def ko_date_tag_match (line : String) : Option String :=
  let s := line.toList
  let lead := "--------------- ".toList
  if startsWithL s lead then
    let r := s.drop lead.length
    let yyyy := r.take 4
    if yyyy.length == 4 && yyyy.all isDigitCh && startsWithL (r.drop 4) "년 ".toList then
      let r := r.drop 6
      let mm := (r.takeWhile isDigitCh).take 2
      if startsWithL (r.drop mm.length) "월 ".toList then
        let r2 := r.drop (mm.length + 2)
        let dd := (r2.takeWhile isDigitCh).take 2
        if startsWithL (r2.drop dd.length) "일 ".toList then
          match r2.drop (dd.length + 2) with
          | c :: rest =>
            if !(c == '\n') && startsWithL rest "요일 ---------------".toList then
              some (yyyy ++ "년 ".toList ++ mm ++ "월 ".toList ++ dd ++ "일".toList).asString
            else none
          | [] => none
        else none
      else none
    else none
  else none

/-- The captured groups of a message line, with the roles the group-index
table locale_time_format (lines 228-239) assigns per locale. -/
structure MsgGroups where
  author : String
  hourDigits : List Char
  minuteDigits : List Char
  ampm : Char
  content : String
deriving DecidableEq

/-- The time-and-content tail of en_message after the author group and the
bracket-space-bracket separator: up to two hour digits, a colon, two minute
digits, a space, one word character, the letter M, a closing bracket, a
space, then the rest of the line as content. -/
def enMsgTail (r : List Char) : Option (List Char × List Char × Char × List Char) :=
  let h := (r.takeWhile isDigitCh).take 2
  match r.drop h.length with
  | ':' :: r2 =>
    let mins := r2.take 2
    if mins.length == 2 && mins.all isDigitCh then
      match r2.drop 2 with
      | ' ' :: a :: 'M' :: ']' :: ' ' :: rest =>
        if isWordCh a then some (h, mins, a, rest.takeWhile (fun c => !(c == '\n')))
        else none
      | _ => none
    else none
  | _ => none

/-- The corresponding tail of ko_message: the meridiem sign, one word
character, a space, up to two hour digits, a colon, two minute digits, a
closing bracket, a space, then the content. -/
def koMsgTail (r : List Char) : Option (List Char × List Char × Char × List Char) :=
  match r with
  | '오' :: a :: ' ' :: r1 =>
    if isWordCh a then
      let h := (r1.takeWhile isDigitCh).take 2
      match r1.drop h.length with
      | ':' :: r2 =>
        let mins := r2.take 2
        if mins.length == 2 && mins.all isDigitCh then
          match r2.drop 2 with
          | ']' :: ' ' :: rest =>
            some (h, mins, a, rest.takeWhile (fun c => !(c == '\n')))
          | _ => none
        else none
      | _ => none
    else none
  | _ => none

/-- The author group of a message line: greedy and backtracking, trying the
longest author first and, for each candidate, requiring the full tail to
match. -/
def msgGroupsAux (tail : List Char → Option (List Char × List Char × Char × List Char))
    (s1 : List Char) : Nat → Option MsgGroups
  | 0 =>
    if startsWithL s1 "] [".toList then
      match tail (s1.drop 3) with
      | some (h, mins, a, c) => some ⟨"", h, mins, a, c.asString⟩
      | none => none
    else none
  | k + 1 =>
    let pre := s1.take (k + 1)
    let stepDown := msgGroupsAux tail s1 k
    if pre.length == k + 1 && pre.all (fun c => !(c == '\n')) &&
       startsWithL (s1.drop (k + 1)) "] [".toList then
      match tail ((s1.drop (k + 1)).drop 3) with
      | some (h, mins, a, c) => some ⟨pre.asString, h, mins, a, c.asString⟩
      | none => stepDown
    else stepDown

/-- en_message (line 58). -/
def en_message_match (line : String) : Option MsgGroups :=
  match line.toList with
  | '[' :: s1 => msgGroupsAux enMsgTail s1 20
  | _ => none

/-- ko_message (line 136). -/
def ko_message_match (line : String) : Option MsgGroups :=
  match line.toList with
  | '[' :: s1 => msgGroupsAux koMsgTail s1 20
  | _ => none

/-- The tail group of the invite patterns: one or more non-newline
characters, greedy, followed by a fixed literal; the regex backtracks to the
last occurrence of the literal that leaves the group non-empty. -/
def lastLitSplit (lit t : List Char) : Option (List Char) :=
  let rec go : Nat → Option (List Char)
    | 0 => none
    | j + 1 => if startsWithL (t.drop (j + 1)) lit then some (t.take (j + 1)) else go j
  go t.length

/-- The head group of the event patterns: at most 20 non-newline
characters, greedy and backtracking against the rest of the pattern. -/
def eventHeadAux (rest : List Char → Option (List Char)) (s : List Char) :
    Nat → Option (String × List Char)
  | 0 =>
    match rest s with
    | some g2 => some ("", g2)
    | none => none
  | k + 1 =>
    let pre := s.take (k + 1)
    let stepDown := eventHeadAux rest s k
    if pre.length == k + 1 && pre.all (fun c => !(c == '\n')) then
      match rest (s.drop (k + 1)) with
      | some g2 => some (pre.asString, g2)
      | none => stepDown
    else stepDown

/-- en_event_invite (line 96): the inviter, the literal invited surrounded
by spaces, the invitee group, then a dot. -/
def en_event_invite_match (line : String) : Option (String × String) :=
  let s := line.toList
  let rest := fun r =>
    if startsWithL r " invited ".toList then
      lastLitSplit ['.'] ((r.drop 9).takeWhile (fun c => !(c == '\n')))
    else none
  (eventHeadAux rest s 20).map (fun p => (p.1, p.2.asString))

/-- en_event_leave (line 99): a name then the literal left and a dot. -/
def en_event_leave_match (line : String) : Option String :=
  let s := line.toList
  let rest := fun r => if startsWithL r " left.".toList then some ([] : List Char) else none
  (eventHeadAux rest s 20).map (·.1)

/-- ko_event_invite (line 174). -/
def ko_event_invite_match (line : String) : Option (String × String) :=
  let s := line.toList
  let rest := fun r =>
    if startsWithL r "님이 ".toList then
      lastLitSplit "님을 초대하였습니다.".toList ((r.drop 3).takeWhile (fun c => !(c == '\n')))
    else none
  (eventHeadAux rest s 20).map (fun p => (p.1, p.2.asString))

/-- ko_event_leave (line 177). -/
def ko_event_leave_match (line : String) : Option String :=
  let s := line.toList
  let rest := fun r => if startsWithL r "님이 나갔습니다.".toList then some ([] : List Char) else none
  (eventHeadAux rest s 20).map (·.1)

/-! ## The classification tables of analyzer.py -/

/-- analyzer.py lines 183-189.  The Python list literal has no comma after
the deleted entry, so the adjacent string literals deleted and voice_note
are concatenated into the single element deletedvoice_note: the list has
four elements, not five. -/
def rich_content_types : List String :=
  ["stickers", "photo", "video", "deletedvoice_note"]

/-- analyzer.py lines 192-196. -/
def rich_content_regex_types : List String :=
  ["youtube_link", "link", "file"]

/-- analyzer.py lines 199-206 (the source spells duraton). -/
def rich_content_regex_duraton_types : List String :=
  ["voice_call", "video_call", "voice_call_hr", "video_call_hr", "live_talk", "live_talk_hr"]

/-- analyzer.py lines 209-212.  For the English locale the format combines
the month name directive with the month number directive and has no day
directive at all. -/
def date_tag_format (lc : String) : String :=
  if lc == "en" then "%B %m, %Y" else "%Y년 %m월 %d일"

/-- analyzer.py line 215. -/
def locales : List String := ["en", "ko"]

/-- analyzer.py lines 218-225: the hour offset added for the meridiem
token, indexed by locale and by the single captured token character.
A missing entry models the KeyError of the dict lookup. -/
def locale_hours (lc : String) (tok : Char) : Option Nat :=
  if lc == "en" then
    if tok == 'A' then some 0 else if tok == 'P' then some 12 else none
  else if lc == "ko" then
    if tok == '전' then some 0 else if tok == '후' then some 12 else none
  else none

/-- The hour stored for a message line: the raw captured hour plus the
locale offset for the captured meridiem token (analyzer.py lines 381-383).
The offset is added literally, with no wraparound for the raw hour 12. -/
def messageHour (lc : String) (rawHour : Nat) (tok : Char) : Option Nat :=
  (locale_hours lc tok).map (fun off => rawHour + off)

/-- The rich_content sub-table of the match table (lines 250-265 for en,
278-293 for ko), with the raw pattern or label strings as values.  The
English dict literal binds the key video_call_hr twice and never binds
voice_call_hr, so the resulting dict has no voice_call_hr key. -/
def rich_content_table (lc : String) : PyDict String String :=
  if lc == "en" then
    [("photo", "Photo"), ("video", "videos"), ("file", "File: .+"),
     ("link", "http.+|www\\..+"), ("youtube_link", "http.+youtu.+"),
     ("stickers", "Emoticons"), ("voice_call", "Voice Call (\\d+):(\\d+)"),
     ("video_call_hr", "Video Call (\\d+):(\\d+):(\\d+)"),
     ("video_call", "Video Call (\\d+):(\\d+)"),
     ("live_talk", "Live Talk ended (\\d+):(\\d+)"),
     ("live_talk_hr", "Live Talk ended (\\d+):(\\d+):(\\d+)"),
     ("voice_note", "Voice Note"), ("deleted", "This message was deleted.")]
  else
    [("photo", "사진"), ("video", "동영상"), ("file", "파일: .+"),
     ("link", "http.+|www\\..+"), ("youtube_link", "http.+youtu.+"),
     ("stickers", "이모티콘"), ("voice_call", "Voice Call (\\d+):(\\d+)"),
     ("voice_call_hr", "Voice Call (\\d+):(\\d+):(\\d+)"),
     ("video_call", "Video Call (\\d+):(\\d+)"),
     ("video_call_hr", "Video Call (\\d+):(\\d+):(\\d+)"),
     ("live_talk", "Live Talk ended (\\d+):(\\d+)"),
     ("live_talk_hr", "Live Talk ended (\\d+):(\\d+):(\\d+)"),
     ("voice_note", "Voice Note"), ("deleted", "삭제된 메시지입니다.")]

/-- The first classification tier (analyzer.py lines 394-397): walk the
non-regex type list, comparing the message content for string equality with
the table entry of each listed type; looking up a type that is not a table
key raises KeyError. -/
def checkRichContentTypes (lc : String) (content : String) :
    List String → Except PyErr (Option String)
  | [] => .ok none
  | t :: rest =>
    match dictGet (rich_content_table lc) t with
    | none => .error (.keyError t)
    | some label =>
      if content == label then .ok (some t) else checkRichContentTypes lc content rest

/-- The second tier (lines 399-405): for each regex type the pattern is
fetched from the table and re.match is called with the pattern only, so the
first iteration raises TypeError (after a KeyError if the key were
missing). -/
def checkRichContentRegexTypes (lc : String) :
    List String → Except PyErr (Option String)
  | [] => .ok none
  | t :: _ =>
    match dictGet (rich_content_table lc) t with
    | none => .error (.keyError t)
    | some _pat =>
      match reMatchMissingArgument with
      | .error e => .error e
      | .ok _ => .ok none

/-- The third tier (lines 407-422): same one-argument re.match call, so the
first iteration raises; the duration arithmetic that follows the match in
the source is therefore unreachable. -/
def checkRichContentDurationTypes (lc : String) :
    List String → Except PyErr (Option String × Option Nat)
  | [] => .ok (none, none)
  | t :: _ =>
    match dictGet (rich_content_table lc) t with
    | none => .error (.keyError t)
    | some _pat =>
      match reMatchMissingArgument with
      | .error e => .error e
      | .ok _ => .ok (none, none)

/-- The rich-content classification of a message content string
(analyzer.py lines 388-422): tier one over rich_content_types, then, if
nothing was found, tier two over rich_content_regex_types, then tier three
over rich_content_regex_duraton_types. -/
def classifyRichContent (lc : String) (content : String) :
    Except PyErr (Option String × Option Nat) :=
  match checkRichContentTypes lc content rich_content_types with
  | .error e => .error e
  | .ok (some t) => .ok (some t, none)
  | .ok none =>
    match checkRichContentRegexTypes lc rich_content_regex_types with
    | .error e => .error e
    | .ok (some t) => .ok (some t, none)
    | .ok none => checkRichContentDurationTypes lc rich_content_regex_duraton_types

/-! ## The parse state machine of analyze (analyzer.py lines 302-473) -/

/-- The message pattern of the active locale. -/
def message_match (lc : String) (line : String) : Option MsgGroups :=
  if lc == "en" then en_message_match line
  else if lc == "ko" then ko_message_match line
  else none

/-- The date-tag pattern of the active locale. -/
def date_tag_match (lc : String) (line : String) : Option String :=
  if lc == "en" then en_date_tag_match line
  else if lc == "ko" then ko_date_tag_match line
  else none

/-- The event pattern of the active locale for one event kind. -/
def event_match (lc : String) (kind : String) (line : String) : Option String :=
  if lc == "en" then
    if kind == "invite" then (en_event_invite_match line).map (·.1)
    else if kind == "leave" then en_event_leave_match line
    else none
  else if lc == "ko" then
    if kind == "invite" then (ko_event_invite_match line).map (·.1)
    else if kind == "leave" then ko_event_leave_match line
    else none
  else none

/-- The local state of the body loop: the chatroom (shared containers and
instance attributes) plus the local variables start_date and end_date of
analyze. -/
structure ParseState where
  shared : ChatroomShared
  inst : ChatroomInstance
  start_date : Option PyDateTime
  end_date : Option PyDateTime
deriving DecidableEq

/-- One iteration of the body loop (analyzer.py lines 371-467), in source
order: message match first, then date tag, then the two event kinds, then
the continuation rule.  The second component reports an exception raised
during the iteration, with the first component holding every mutation that
happened before the raise. -/
def processLine (lc : String) (st : ParseState) (line : String) :
    ParseState × Option PyErr :=
  -- 1. message match (lines 373-437)
  match message_match lc line with
  | some g =>
    let timeRes : Except PyErr (Option PyDateTime) :=
      match st.end_date with
      | none => .ok none
      | some d =>
        -- line 381: int on the hour group, then the locale_hours lookup,
        -- then int on the minute group, then datetime.replace
        match pyIntDigits g.hourDigits with
        | .error e => .error e
        | .ok rawH =>
          match locale_hours lc g.ampm with
          | none => .error (.keyError (String.mk [g.ampm]))
          | some off =>
            match pyIntDigits g.minuteDigits with
            | .error e => .error e
            | .ok mins =>
              match d.replaceHM (rawH + off) mins with
              | .error e => .error e
              | .ok t => .ok (some t)
    match timeRes with
    | .error e => (st, some e)
    | .ok time =>
      match classifyRichContent lc g.content with
      | .error e => (st, some e)
      | .ok (rct, rcd) =>
        let r := Chatroom.add_message st.shared st.inst ⟨time, g.author, g.content, rct, rcd⟩
        ({ st with shared := r.shared, inst := r.inst }, r.err)
  | none =>
  -- 2. date tag match (lines 440-450)
  match date_tag_match lc line with
  | some grp =>
    match datetimeModuleStrptime grp (date_tag_format lc) with
    | .error e => (st, some e)
    | .ok d =>
      let st := if st.start_date == none then { st with start_date := some d } else st
      ({ st with end_date := some d }, none)
  | none =>
  -- 3. events, invite first then leave (lines 453-462)
  match event_match lc "invite" line with
  | some _ =>
    let r := Chatroom.add_event st.shared ⟨"invite", line⟩
    ({ st with shared := r.shared }, r.err)
  | none =>
  match event_match lc "leave" line with
  | some _ =>
    let r := Chatroom.add_event st.shared ⟨"leave", line⟩
    ({ st with shared := r.shared }, r.err)
  | none =>
  -- 4. continuation (lines 465-467): append the raw line, which still
  -- carries its trailing newline, to the most recent message
  match st.shared.messages.getLast? with
  | none => (st, none)
  | some lastM =>
    ({ st with shared :=
         { st.shared with messages := st.shared.messages.dropLast ++ [lastM.append line] } },
     none)

/-- The body loop under its try block (lines 363-472): lines are consumed
in order until one of them raises; the exception handler is outside the
loop, so the first raise ends the processing of every remaining line. -/
def runBody (lc : String) (st : ParseState) : List String → ParseState × Option PyErr
  | [] => (st, none)
  | line :: rest =>
    match processLine lc st line with
    | (st1, none) => runBody lc st1 rest
    | (st1, some e) => (st1, some e)

/-- What the two except clauses around the body loop log (lines 469-472). -/
def bodyLog : Option PyErr → List String
  | none => []
  | some (.valueError m) => [m]
  | some _ => ["cannot parse the given chat log"]

/-- The observable outcome of analyze: the value handed back to the caller,
the chatroom state the call built internally, and the error log. -/
structure AnalyzeResult where
  returned : Option (ChatroomShared × ChatroomInstance)
  chatroom : Option (ChatroomShared × ChatroomInstance)
  logged : List String
deriving DecidableEq

/-- analyze (analyzer.py lines 302-473) on the lines of the input file, as
the file iterator yields them.  The function body has no return statement,
so the caller always receives None; the chatroom field exposes the state of
the local chatroom variable when the body falls off the end.  Control flow
follows the source: the first try block reads the two metadata lines,
detects the locale (en first, then ko), parses the saved date and builds
the chatroom; its except clauses only log.  The second try block runs the
body loop and also only logs.  Because the saved date is parsed with the
attribute strptime of the datetime module, which does not exist, the first
try block always ends in its bare except clause and the chatroom is never
constructed. -/
def analyze (lines : List String) : AnalyzeResult :=
  -- f.readline at end of file yields the empty string
  let metadata_1 := lines.getD 0 ""
  -- locale detection over locales = en, ko
  let locTitle : Option (String × String) :=
    match en_metadata_1_match metadata_1 with
    | some t => some ("en", t)
    | none =>
      match ko_metadata_1_match metadata_1 with
      | some t => some ("ko", t)
      | none => none
  match locTitle with
  | none =>
    -- line 343 raises ValueError, logged by the except ValueError clause;
    -- the second try block then raises and logs because chatroom is None
    ⟨none, none, ["locale not supported or format not recognized",
                  "kakaotalk.Chatroom is not initialized"]⟩
  | some (lc, title) =>
    let metadata_2 := lines.getD 1 ""
    match (if lc == "en" then en_metadata_2_match metadata_2
           else ko_metadata_2_match metadata_2) with
    | none =>
      -- re.match returned None and group(1) on None raises AttributeError,
      -- caught by the bare except clause of the first try block
      ⟨none, none, ["cannot read the metadata of the file",
                    "kakaotalk.Chatroom is not initialized"]⟩
    | some stamp =>
      match datetimeModuleStrptime stamp "%Y-%m-%d %H:%M:%S" with
      | .error _ =>
        -- AttributeError from the module-level strptime lookup, caught by
        -- the bare except clause; chatroom stays None
        ⟨none, none, ["cannot read the metadata of the file",
                      "kakaotalk.Chatroom is not initialized"]⟩
      | .ok date_saved =>
        -- unreachable continuation, embedded for completeness: skip the
        -- blank line, build the chatroom and run the body loop
        let inst := Chatroom.init title date_saved
        let st0 : ParseState := ⟨chatroomClassInit, inst, none, none⟩
        let (stF, err) := runBody lc st0 (lines.drop 3)
        ⟨none, some (stF.shared, stF.inst), bodyLog err⟩

/-! ## Spec-side definition and concrete inputs used by the theorems -/

/-- The wording of claim C5: the first-line content and the continuation
lines, in order, joined with single newline separators. -/
def joinedLines (first : String) (cont : List String) : String :=
  first ++ String.join (cont.map (fun l => "\n" ++ l))

/-- The documented English sample input of the spec, line by line as the
file iterator yields it. -/
def sampleLines : List String :=
  ["Alice with KakaoTalk Chats\n",
   "Date Saved: 2021-05-01 10:00:00\n",
   "\n",
   "--------------- Saturday, May 01, 2021 ---------------\n",
   "[Bob] [3:15 PM] Hello there\n",
   "continued line\n",
   "[Bob] [3:16 PM] Photo\n",
   "Carol invited Dave.\n",
   "Carol left.\n"]

/-- A start state for the body loop: freshly built chatroom, no date tag
seen yet. -/
def bodyStart : ParseState :=
  ⟨chatroomClassInit, Chatroom.init "Alice" ⟨2021, 5, 1, 10, 0, 0⟩, none, none⟩

/-- A body line that matches the date-tag pattern but whose captured date
does not fit the date format of the locale. -/
def badDateTagLine : String := "--------------- Xday, Foo 99, 2021 ---------------\n"

/-- A leave-event body line. -/
def leaveLine : String := "Carol left.\n"

/-- A message line with photo content, used before any date tag. -/
def undatedPhotoLine : String := "[Bob] [3:15 PM] Photo\n"

/-- An input whose header matches no locale. -/
def proseLines : List String := ["random prose\n", "more prose\n"]

/-- An input with a well-formed English header. -/
def goodHeaderLines : List String :=
  ["Alice with KakaoTalk Chats\n", "Date Saved: 2021-05-01 10:00:00\n", "\n",
   "[Bob] [3:15 PM] Hi\n"]

/-- Two distinct Chatroom instances, as two constructor calls build them. -/
def roomA : ChatroomInstance := Chatroom.init "room one" ⟨2021, 5, 1, 10, 0, 0⟩

def roomB : ChatroomInstance := Chatroom.init "room two" ⟨2021, 6, 2, 11, 0, 0⟩

/-- A plain, timestamped message. -/
def plainMsg : Message := ⟨some ⟨2021, 5, 1, 15, 15, 0⟩, "Bob", "Hello there", none, none⟩

/-! ## Helper lemmas -/

theorem strAppend_assoc (a b c : String) : a ++ b ++ c = a ++ (b ++ c) := by
  apply String.ext
  simp [String.data_append, List.append_assoc]

theorem strJoin_cons (x : String) (l : List String) :
    String.join (x :: l) = x ++ String.join l := by
  apply String.ext
  simp [String.data_join, String.data_append]

/-! ## The claims -/

/-- Claim C1: on the documented English sample input, analyze is claimed to
produce exactly 2 messages, 2 events and the date context 2021-05-01.  The
code instead fails while parsing the saved-date metadata line, because the
strptime attribute it looks up on the datetime module does not exist, so no
chatroom is ever constructed and the caller receives None: zero messages
and zero events. -/
theorem C1_sample_produces_no_records :
    (analyze sampleLines).returned = none ∧ (analyze sampleLines).chatroom = none ∧
    (analyze sampleLines).logged =
      ["cannot read the metadata of the file", "kakaotalk.Chatroom is not initialized"] :=
  ⟨rfl, rfl, rfl⟩

/-- Claim C2: rich-content classification is claimed to try three tiers in
order, first match wins, with unmatched content left unclassified.  In the
code the first tier walks the list stickers, photo, video,
deletedvoice_note, whose last element is two labels fused by a missing
comma; looking up that key raises KeyError for every content string that is
not exactly one of the first three labels, so the later tiers are never
reached and even the deleted label itself cannot be classified. -/
theorem C2_classification_raises_keyerror :
    classifyRichContent "en" "This message was deleted." =
      .error (.keyError "deletedvoice_note") ∧
    classifyRichContent "en" "Photo" = .ok (some "photo", none) :=
  ⟨rfl, rfl⟩

/-- Claim C3: a body line that fails secondary parsing is claimed to be
logged and skipped, with parsing continuing at the next line.  The
exception handler sits outside the body loop, and the date-tag branch
raises on every date tag since the module-level strptime lookup fails, so
the first failing line ends the parse: a leave-event line produces an event
when it stands alone, but is never reached behind a failing date tag. -/
theorem C3_error_stops_remaining_lines :
    (runBody "en" bodyStart [leaveLine]).1.shared.events = [⟨"leave", leaveLine⟩] ∧
    (runBody "en" bodyStart [badDateTagLine, leaveLine]).1.shared.events = [] ∧
    (runBody "en" bodyStart [badDateTagLine, leaveLine]).2 =
      some (.attributeError "module datetime has no attribute strptime") :=
  ⟨rfl, rfl, rfl⟩

/-- Claim C4: an unsupported header is claimed to yield a fatal error with
zero records, and a matching header a populated chatroom returned to the
caller.  The unsupported half holds in the sense that no chatroom exists
and nothing is returned, but the matching half fails: analyze has no return
statement and its metadata parsing always raises, so the caller receives
None even for a well-formed header. -/
theorem C4_analyze_never_returns_chatroom :
    (analyze []).returned = none ∧ (analyze []).chatroom = none ∧
    (analyze proseLines).returned = none ∧ (analyze proseLines).chatroom = none ∧
    (analyze goodHeaderLines).returned = none ∧
    (analyze goodHeaderLines).chatroom = none :=
  ⟨rfl, rfl, rfl, rfl, rfl, rfl⟩

/-- Claim C5: appending n continuation lines to a message reproduces, as
the final content, exactly the first-line content followed by the
continuation lines in emission order, joined with single newline
separators: no lines dropped, no reordering, no extra characters. -/
theorem C5_continuation_roundtrip (m : Message) (ls : List String) :
    (ls.foldl Message.append m).content = joinedLines m.content ls := by
  induction ls generalizing m with
  | nil =>
    simp only [List.foldl_nil, joinedLines, List.map_nil]
    rw [show String.join [] = "" from rfl, String.append_empty]
  | cons a t ih =>
    simp only [List.foldl_cons, ih, joinedLines, Message.append, List.map_cons, strJoin_cons]
    simp [strAppend_assoc]

/-- Claim C6 counterexample: the claim states that AM-decoded hours lie in
0..11 and that the hour token 12 with an AM-equivalent token decodes to 0;
the code adds the locale offset literally, so 12 AM decodes to 12. -/
theorem C6_counterexample :
    messageHour "en" 12 'A' = some 12 ∧ messageHour "en" 12 'A' ≠ some 0 ∧
    ¬ (∀ h, messageHour "en" 12 'A' = some h → h ≤ 11) :=
  ⟨rfl, by decide, fun hAll => absurd (hAll 12 rfl) (by decide)⟩

/-- Claim C6 amended: for raw hours at most 11, an AM-equivalent token
decodes to the raw hour, in 0..11, and a PM-equivalent token to the raw
hour plus 12, in 12..23; the raw hour 12 with an AM-equivalent token
decodes literally to 12, not 0. -/
theorem C6_amended_hour_ranges (lc : String) (am pm : Char) (r : Nat)
    (hr : r ≤ 11) (ham : locale_hours lc am = some 0)
    (hpm : locale_hours lc pm = some 12) :
    messageHour lc r am = some r ∧ r ≤ 11 ∧
    messageHour lc r pm = some (r + 12) ∧ 12 ≤ r + 12 ∧ r + 12 ≤ 23 ∧
    messageHour lc 12 am = some 12 := by
  refine ⟨?_, hr, ?_, by omega, by omega, ?_⟩
  · simp [messageHour, ham]
  · simp [messageHour, hpm]
  · simp [messageHour, ham]

/-- Witness for the amended claim C6 at the English locale and raw hour 3. -/
theorem C6_amended_hour_ranges_witness :
    messageHour "en" 3 'A' = some 3 ∧ 3 ≤ 11 ∧
    messageHour "en" 3 'P' = some (3 + 12) ∧ 12 ≤ 3 + 12 ∧ 3 + 12 ≤ 23 ∧
    messageHour "en" 12 'A' = some 12 :=
  C6_amended_hour_ranges "en" 'A' 'P' 3 (by decide) rfl rfl

/-- Claim C7: the content Voice Call 05:30 is claimed to yield duration 330
seconds and tag voice_call, and the hour variant 3930 seconds.
Classification never gets there: the first tier raises KeyError on the
fused list entry before the duration tier is reached, and the duration tier
itself raises TypeError on its first iteration because re.match is called
without the string argument, so no duration is ever recorded. -/
theorem C7_duration_never_computed :
    classifyRichContent "en" "Voice Call 05:30" =
      .error (.keyError "deletedvoice_note") ∧
    classifyRichContent "en" "Voice Call 01:05:30" =
      .error (.keyError "deletedvoice_note") ∧
    checkRichContentDurationTypes "en" rich_content_regex_duraton_types =
      .error (.typeError "match missing 1 required positional argument: string") :=
  ⟨rfl, rfl, rfl⟩

/-- Claim C8: a message line before any date tag is claimed to be accepted
with an unset timestamp and parsing to complete without aborting.  The code
does append the undated message, but add_message then raises AttributeError
calling strftime on None, the handler outside the loop fires, and no later
line is processed: the following leave line produces no event. -/
theorem C8_undated_message_aborts_parse :
    (runBody "en" bodyStart [undatedPhotoLine, leaveLine]).1.shared.messages =
      [⟨none, "Bob", "Photo", some "photo", none⟩] ∧
    (runBody "en" bodyStart [undatedPhotoLine, leaveLine]).1.shared.events = [] ∧
    (runBody "en" bodyStart [undatedPhotoLine, leaveLine]).2 =
      some (.attributeError "NoneType object has no attribute strftime") :=
  ⟨rfl, rfl, rfl⟩

/-- Claim C9: every Chatroom instance is claimed to own its message and
event sequences and counter mappings exclusively, adding to one leaving the
other unchanged.  The containers are class attributes that no instance ever
rebinds, so all instances read the same objects: after one message is added
through the first instance, the messages attribute observed through the
second, untouched instance has grown from empty to that one message. -/
theorem C9_containers_shared_between_instances :
    roomA ≠ roomB ∧
    Chatroom.getMessages chatroomClassInit roomB = [] ∧
    (Chatroom.add_message chatroomClassInit roomA plainMsg).err = none ∧
    Chatroom.getMessages (Chatroom.add_message chatroomClassInit roomA plainMsg).shared roomB
      = [plainMsg] :=
  ⟨by decide, rfl, rfl, rfl⟩

/-- Claim C10: add_event appends the event to the shared events list before
updating the per-kind counter, whose dict has exactly the keys invite and
leave; for any other kind the counter update raises KeyError while the
event has already been appended, so the operation is not atomic on error. -/
theorem C10_add_event_not_atomic (sh : ChatroomShared) (e : Event)
    (h1 : e.event_type ≠ "invite") (h2 : e.event_type ≠ "leave")
    (h3 : sh.event_count = chatroomClassInit.event_count) :
    (Chatroom.add_event sh e).shared.events = sh.events ++ [e] ∧
    (Chatroom.add_event sh e).err = some (.keyError e.event_type) := by
  have e1 : ("invite" : String) ≠ e.event_type := fun h => h1 h.symm
  have e2 : ("leave" : String) ≠ e.event_type := fun h => h2 h.symm
  have hget : dictGet sh.event_count e.event_type = none := by
    rw [h3]
    simp [chatroomClassInit, dictGet, List.find?, e1, e2]
  refine ⟨?_, ?_⟩ <;> simp [Chatroom.add_event, hget]

/-- Witness for claim C10 at a concrete unknown event kind. -/
theorem C10_add_event_not_atomic_witness :
    (Chatroom.add_event chatroomClassInit ⟨"open_chat", "x joined.\n"⟩).shared.events =
      chatroomClassInit.events ++ [⟨"open_chat", "x joined.\n"⟩] ∧
    (Chatroom.add_event chatroomClassInit ⟨"open_chat", "x joined.\n"⟩).err =
      some (.keyError "open_chat") :=
  C10_add_event_not_atomic chatroomClassInit ⟨"open_chat", "x joined.\n"⟩
    (by decide) (by decide) rfl

end KTA
